import Mathlib

/-!
Shallow embedding of the connection-service core of
`src/lib/libwebsockets.c` (libwebsockets-patches).

Modelling conventions:
- The constants `LWS_MAX_PROTOCOLS` and `MAX_CLIENTS` come from the
  header `private-libwebsockets.h`, which is not part of this
  repository snapshot; they are kept as explicit parameters (`bound`,
  `maxClients`) of the definitions.
- The connection-slot array `wsi[]` holds C `struct libwebsocket *`
  values that are either real pointers or small-integer sentinels,
  distinguished by the magnitude test
  `(unsigned long)wsi < LWS_MAX_PROTOCOLS`.  We model a slot value as
  a sum: `sentinel i` stands for the numeric value `i` (this includes
  `NULL`, whose numeric value is 0), and `conn c` stands for a pointer
  to a record; any valid pointer has magnitude at least
  `LWS_MAX_PROTOCOLS`, so the magnitude test is `false` on `conn`.
- A protocol pointer `wsi->protocol` is modelled as the index of the
  pointed-to entry in the protocol table; C pointer equality of two
  pointers into the same table is index equality.
- Callback invocations are recorded as events carrying the connection
  record value passed to the callback, the reason, and the length
  argument.
- `poll`/`read`/`recv`/`libwebsocket_read` results come from an
  explicit oracle (the environment), since those are system calls or
  external modules.
- The broadcast read assigns the `ssize_t` result of `read` to a
  `size_t` local `len`; on a 64-bit target this is reduction modulo
  2^64, made explicit in `toSizeT`.
-/

/-- Values of `wsi->state` (from the missing header, used by the C file as
`WSI_STATE_HTTP`, `WSI_STATE_ESTABLISHED`, `WSI_STATE_DEAD_SOCKET`). -/
inductive WsiState where
  | WSI_STATE_HTTP
  | WSI_STATE_ESTABLISHED
  | WSI_STATE_DEAD_SOCKET
deriving DecidableEq, Repr, Inhabited

/-- Callback reasons used by the C file. -/
inductive CallbackReason where
  | LWS_CALLBACK_ESTABLISHED
  | LWS_CALLBACK_CLOSED
  | LWS_CALLBACK_RECEIVE
  | LWS_CALLBACK_BROADCAST
  | LWS_CALLBACK_HTTP
deriving DecidableEq, Repr, Inhabited

/-- The per-connection record `struct libwebsocket` (fields the service core
reads or writes; token buffers are abstracted by the teardown `freed` flag). -/
structure Conn where
  sock : Nat
  state : WsiState
  name_buffer_pos : Nat
  /-- index of the entry of the protocol table that `wsi->protocol` points at -/
  protocol : Nat
  user_space : Bool
  ietf_spec_revision : Nat
deriving DecidableEq, Repr, Inhabited

/-- An entry of the user-supplied `struct libwebsocket_protocols` table.
`hasCallback = false` marks the terminating entry (absent callback). -/
structure Protocol where
  hasCallback : Bool
  protocol_index : Nat
  broadcast_socket_port : Nat
  /-- 0 models the field being absent (never initialized in the service
  process) -/
  broadcast_socket_user_fd : Nat
deriving DecidableEq, Repr, Inhabited

/-- A value of the connection-slot array `wsi[]`: either the numeric value
`i` (`sentinel i`, covering `NULL` = 0 and the protocol-index sentinels) or
a pointer to a connection record (`conn c`). -/
inductive SlotValue where
  | sentinel (i : Nat)
  | conn (c : Conn)
deriving DecidableEq, Repr, Inhabited

/-- The magnitude test `(unsigned long)wsi < LWS_MAX_PROTOCOLS`.  A real
record pointer has magnitude at least `LWS_MAX_PROTOCOLS` (the sentinel
encoding invariant), so the test is `false` on `conn`. -/
def SlotValue.value_lt (v : SlotValue) (bound : Nat) : Bool :=
  match v with
  | .sentinel i => i < bound
  | .conn _ => false

/-- The numeric value `(unsigned long)wsi` of a slot holding a sentinel.
Only used on slots whose magnitude test succeeded, hence on `sentinel`;
the `conn` branch is unreachable there and returns 0. -/
def SlotValue.sentinelVal (v : SlotValue) : Nat :=
  match v with
  | .sentinel i => i
  | .conn _ => 0

/-- The C `NULL` stored into broadcast-listener slots: numeric value 0. -/
def nullSlot : SlotValue := .sentinel 0

/-- A recorded callback invocation: the record value handed to the
callback, the reason, and the `len` argument. -/
structure Event where
  target : Conn
  reason : CallbackReason
  payloadLen : Nat
deriving DecidableEq, Repr, Inhabited

/-- One entry of the `struct pollfd` array (values of POLLIN and friends
are the Linux `poll.h` ones). -/
structure Pollfd where
  fd : Nat
  events : Nat
  revents : Nat
deriving DecidableEq, Repr, Inhabited

/-- POLLIN from the Linux poll.h. -/
def POLLIN : Nat := 1
/-- POLLERR from the Linux poll.h. -/
def POLLERR : Nat := 8
/-- POLLHUP from the Linux poll.h. -/
def POLLHUP : Nat := 16

/-- The parts of `struct libwebsocket_context` the service core uses:
`count_protocols` and the two parallel arrays, whose active prefix of
length `fds_count` is modelled by lists. -/
structure Context where
  count_protocols : Nat
  fds : List Pollfd
  wsi : List SlotValue
deriving DecidableEq, Repr, Inhabited

/-- Dereference `wsi->protocol` in the protocol table (always valid in the
running program; the default is irrelevant under the validity hypotheses
used in the theorems). -/
def protoOf (protos : List Protocol) (c : Conn) : Protocol :=
  protos.getD c.protocol default

/-- Lines 85-91 of libwebsockets.c: record the prior state, set the state
to `WSI_STATE_DEAD_SOCKET`, and fire the `CLOSED` callback when the
callback is present and the prior state was `ESTABLISHED`.  Returns the
record as mutated (in C it is subsequently freed) and the callback
events. -/
def closeAndFreeConn (protos : List Protocol) (c : Conn) : Conn × List Event :=
  let n := c.state
  let c2 := { c with state := .WSI_STATE_DEAD_SOCKET }
  let evs :=
    if (protoOf protos c).hasCallback = true ∧ n = .WSI_STATE_ESTABLISHED then
      [⟨c2, .LWS_CALLBACK_CLOSED, 0⟩]
    else []
  (c2, evs)

/-- `libwebsocket_close_and_free_session` (lines 77-116): the early return
on `(unsigned long)wsi < LWS_MAX_PROTOCOLS` makes the call a no-op on
sentinel values; otherwise the record is closed and its resources
released.  Result: the slot value afterwards, the callback events, and
whether resources were released.  The `sentinel i` case with
`bound ≤ i` cannot arise for values the program stores (pointers are
modelled by `conn`). -/
def libwebsocket_close_and_free_session (bound : Nat) (protos : List Protocol)
    (v : SlotValue) : SlotValue × List Event × Bool :=
  if v.value_lt bound then (v, [], false)
  else
    match v with
    | .conn c =>
      let r := closeAndFreeConn protos c
      (.conn r.1, r.2, true)
    | .sentinel i => (.sentinel i, [], false)

/-- The slots visited by the broadcast loops: indices
`count_protocols + 1 .. fds_count - 1` of `wsi[]`, in order (lines
162-163 and 743). -/
def broadcastSlots (ctx : Context) : List SlotValue :=
  ctx.wsi.drop (ctx.count_protocols + 1)

/-- The per-slot filter of the rendezvous fan-out (lines 165-184): skip
sentinel values, skip non-`ESTABLISHED` records, skip records whose
`protocol->protocol_index` differs from the broadcasting slot's numeric
value `s`. -/
def fanOutTarget (bound : Nat) (protos : List Protocol) (s : Nat)
    (v : SlotValue) : Option Conn :=
  if v.value_lt bound then none
  else
    match v with
    | .sentinel _ => none
    | .conn c =>
      if c.state ≠ .WSI_STATE_ESTABLISHED then none
      else if (protoOf protos c).protocol_index ≠ s then none
      else some c

/-- The `BROADCAST` callbacks fired by the rendezvous fan-out in
`libwebsocket_poll_connections` (lines 162-190) for the sentinel value
`s` and payload length `len`. -/
def fanOutEvents (bound : Nat) (protos : List Protocol) (ctx : Context)
    (s : Nat) (len : Nat) : List Event :=
  ((broadcastSlots ctx).filterMap (fanOutTarget bound protos s)).map
    (fun c => ⟨c, .LWS_CALLBACK_BROADCAST, len⟩)

/-- The per-slot filter of the in-loop path of `libwebsockets_broadcast`
(lines 745-756): skip sentinel values, skip non-`ESTABLISHED` records,
skip records whose `protocol` pointer differs from the argument `P`
(pointer equality on table entries is index equality). -/
def inLoopTarget (bound : Nat) (P : Nat)
    (v : SlotValue) : Option Conn :=
  if v.value_lt bound then none
  else
    match v with
    | .sentinel _ => none
    | .conn c =>
      if c.state ≠ .WSI_STATE_ESTABLISHED then none
      else if c.protocol ≠ P then none
      else some c

/-- The `BROADCAST` callbacks fired by the in-loop path of
`libwebsockets_broadcast` (lines 743-762) for protocol table entry `P`
and payload length `len`. -/
def inLoopEvents (bound : Nat) (ctx : Context)
    (P : Nat) (len : Nat) : List Event :=
  ((broadcastSlots ctx).filterMap (inLoopTarget bound P)).map
    (fun c => ⟨c, .LWS_CALLBACK_BROADCAST, len⟩)

/-- Result of `libwebsockets_broadcast`: either the in-loop fan-out ran
(callback events recorded, return value 0) or the payload was sent on the
foreign-side rendezvous descriptor. -/
inductive BroadcastResult where
  | inLoop (evs : List Event)
  | sent (len : Nat)
deriving DecidableEq, Repr

/-- `libwebsockets_broadcast` (lines 724-770): when
`protocol->broadcast_socket_user_fd` is absent (0, the service-process
case) the fan-out runs synchronously over the client slots; otherwise
the payload is written to the rendezvous descriptor. -/
def libwebsockets_broadcast (bound : Nat) (protos : List Protocol)
    (ctx : Context) (P : Nat) (len : Nat) : BroadcastResult :=
  if (protos.getD P default).broadcast_socket_user_fd = 0 then
    .inLoop (inLoopEvents bound ctx P len)
  else
    .sent len

/-- 64-bit `size_t` modulus. -/
def SIZE_T_MOD : Nat := 2 ^ 64

/-- The C conversion of the `ssize_t` result of `read` to the `size_t`
local `len` (line 152): reduction modulo 2^64. -/
def toSizeT (i : Int) : Nat := (i % (SIZE_T_MOD : Int)).toNat

/-- Environment of one service pass: the results returned by `read` on a
rendezvous descriptor, by `recv`/`SSL_read` on a client socket, and by
the external `libwebsocket_read` engine, per slot index. -/
structure Oracle where
  bcastRead : Nat → Int
  recvResult : Nat → Int
  engineResult : Nat → Int

/-- What servicing one slot does to the table. -/
inductive SlotAction where
  /-- no reap; the recorded callback events -/
  | continueWith (evs : List Event)
  /-- teardown events then reap and break (`goto nuke_this`) -/
  | reapAfterClose (evs : List Event)
  /-- reap and break without teardown (engine returned negative and
  already freed the record, lines 216-223) -/
  | reapOnly
deriving DecidableEq, Repr

/-- Whether the action reaps the slot (and breaks the service loop). -/
def SlotAction.isReap : SlotAction → Bool
  | .continueWith _ => false
  | .reapAfterClose _ => true
  | .reapOnly => true

/-- Servicing of one slot together with the bytes (if any) handed to the
handshake/framing engine `libwebsocket_read`. -/
structure SlotStep where
  handedToEngine : Option Nat
  action : SlotAction
deriving DecidableEq, Repr

/-- One iteration of the service loop body (lines 129-234) for slot
`client`:
- `revents & (POLLERR | POLLHUP)` → teardown and reap;
- no `POLLIN` → skip;
- sentinel slot → rendezvous read (`size_t len`, whose `len < 0` test
  can never succeed) and fan-out;
- record slot → transport read: negative → log and skip, zero →
  teardown and reap, positive → hand the bytes to the engine, reaping
  when the engine returns negative. -/
def serviceSlotStep (bound : Nat) (protos : List Protocol) (orc : Oracle)
    (client : Nat) (ctx : Context) : SlotStep :=
  let revents := (ctx.fds.getD client default).revents
  if revents &&& (POLLERR ||| POLLHUP) ≠ 0 then
    ⟨none, .reapAfterClose
      (libwebsocket_close_and_free_session bound protos
        (ctx.wsi.getD client nullSlot)).2.1⟩
  else if revents &&& POLLIN = 0 then
    ⟨none, .continueWith []⟩
  else
    let v := ctx.wsi.getD client nullSlot
    if v.value_lt bound then
      let len := toSizeT (orc.bcastRead client)
      if len < 0 then
        ⟨none, .continueWith []⟩
      else
        ⟨none, .continueWith (fanOutEvents bound protos ctx v.sentinelVal len)⟩
    else
      let n := orc.recvResult client
      if n < 0 then
        ⟨none, .continueWith []⟩
      else if n = 0 then
        ⟨none, .reapAfterClose
          (libwebsocket_close_and_free_session bound protos v).2.1⟩
      else if orc.engineResult client ≥ 0 then
        ⟨some n.toNat, .continueWith []⟩
      else
        ⟨some n.toNat, .reapOnly⟩

/-- The reap at `nuke_this` (lines 228-233): decrement `fds_count` and
left-shift both parallel arrays from index `i`. -/
def reap (i : Nat) (ctx : Context) : Context :=
  { ctx with fds := ctx.fds.eraseIdx i, wsi := ctx.wsi.eraseIdx i }

/-- The service loop over a list of slot indices: each slot is serviced by
`serviceSlotStep`; a reap ends the pass (`break` after `nuke_this`). -/
def serviceSlots (bound : Nat) (protos : List Protocol) (orc : Oracle) :
    List Nat → Context → Context × List Event
  | [], ctx => (ctx, [])
  | client :: rest, ctx =>
    match (serviceSlotStep bound protos orc client ctx).action with
    | .continueWith evs =>
      let r := serviceSlots bound protos orc rest ctx
      (r.1, evs ++ r.2)
    | .reapAfterClose evs => (reap client ctx, evs)
    | .reapOnly => (reap client ctx, [])

/-- `libwebsocket_poll_connections` (lines 118-237): service the client
region, slots `count_protocols + 1 .. fds_count - 1`, in order. -/
def libwebsocket_poll_connections (bound : Nat) (protos : List Protocol)
    (orc : Oracle) (ctx : Context) : Context × List Event :=
  serviceSlots bound protos orc
    (List.range' (ctx.count_protocols + 1)
      (ctx.fds.length - (ctx.count_protocols + 1))) ctx

/-- The accept-phase guard, line 537 of libwebsockets.c, exactly as
written: `!this->fds[client].revents & POLLIN`.  C operator precedence
makes this `(!revents) & POLLIN`; the slot is skipped when the value is
nonzero. -/
def acceptGuardSkips (revents : Nat) : Bool :=
  ((if revents == 0 then 1 else 0) &&& POLLIN) ≠ 0

/-- The readable test the specification describes for the accept phase:
`(revents & POLLIN) != 0`. -/
def reventsReadable (revents : Nat) : Bool :=
  revents &&& POLLIN ≠ 0

/-- The connection record as initialized on accept of the main listener
(lines 621-647): `HTTP` state, scratch position 0, protocol pointer at
the table head, no user space, spec revision 76. -/
def newConn (fd : Nat) : Conn :=
  { sock := fd
    state := .WSI_STATE_HTTP
    name_buffer_pos := 0
    protocol := 0
    user_space := false
    ietf_spec_revision := 76 }

/-- `fill_in_fds` (lines 649-659): append a descriptor with zeroed
`revents`, wait mask `POLLIN`, alongside the given connection-slot
value. -/
def appendSlot (ctx : Context) (fd : Nat) (v : SlotValue) : Context :=
  { ctx with
    fds := ctx.fds ++ [⟨fd, POLLIN, 0⟩]
    wsi := ctx.wsi ++ [v] }

/-- Outcome of one accept attempt. -/
structure AcceptOutcome where
  ctx : Context
  /-- the freshly accepted descriptor was closed (table full) -/
  closedNewFd : Bool
  /-- a connection record was created -/
  createdRecord : Bool
  /-- callback invocations (the accept path performs none) -/
  events : List Event
deriving DecidableEq, Repr

/-- The body of the accept phase for slot `client` once an accept was
attempted (lines 542-659, non-SSL path): a negative accept result is
logged and skipped; a full table (`fds_count >= MAX_CLIENTS`) closes the
new descriptor; a rendezvous listener (`client != 0`) appends the
sentinel `client - 1`; the main listener appends a fresh record. -/
def acceptOnSlot (maxClients : Nat) (client : Nat) (fd : Int)
    (ctx : Context) : AcceptOutcome :=
  if fd < 0 then ⟨ctx, false, false, []⟩
  else if ctx.fds.length ≥ maxClients then ⟨ctx, true, false, []⟩
  else if client ≠ 0 then
    ⟨appendSlot ctx fd.toNat (.sentinel (client - 1)), false, false, []⟩
  else
    ⟨appendSlot ctx fd.toNat (.conn (newConn fd.toNat)), false, true, []⟩

/-- The bootstrap loop over the protocol table (lines 420-424): stamp
`protocol_index` with the running count on every entry up to the
terminator (the entry with an absent callback). -/
def stampProtocols : Nat → List Protocol → List Protocol
  | _, [] => []
  | i, p :: rest =>
    if p.hasCallback then
      { p with protocol_index := i } :: stampProtocols (i + 1) rest
    else p :: rest

/-- `count_protocols` after bootstrap: the number of entries before the
terminator. -/
def countProtocols : List Protocol → Nat
  | [] => 0
  | p :: rest => if p.hasCallback then countProtocols rest + 1 else 0

/-- The connection-slot array right after the bootstrap loop (lines
407-466): slot 0 is the listener (its connection-slot is never written
by the code and never read; it is kept as a parameter `w0`), and each of
the `n` rendezvous-listener slots stores `NULL` (line 464). -/
def bootstrapWsi (w0 : SlotValue) (n : Nat) : List SlotValue :=
  w0 :: List.replicate n nullSlot

/-- The descriptor array right after the bootstrap loop: the listener and
the `n` rendezvous listeners, all waiting for `POLLIN`. -/
def bootstrapFds (listenFd : Nat) (rdvFds : List Nat) : List Pollfd :=
  ⟨listenFd, POLLIN, 0⟩ :: rdvFds.map (fun fd => ⟨fd, POLLIN, 0⟩)

/-!
Concrete fixtures used by the witnesses: a server with two protocols
(table terminated by an entry with an absent callback), in the service
process (`broadcast_socket_user_fd` never initialized, 0), with one
rendezvous connection carrying sentinel 0 and three client records: one
`ESTABLISHED` on protocol 0, one still in `HTTP` on protocol 0, one
`ESTABLISHED` on protocol 1.
-/

/-- Fixture: protocol 0 of the table, after bootstrap stamping. -/
def proto0 : Protocol :=
  { hasCallback := true, protocol_index := 0, broadcast_socket_port := 40000
    broadcast_socket_user_fd := 0 }

/-- Fixture: protocol 1 of the table, after bootstrap stamping. -/
def proto1 : Protocol :=
  { hasCallback := true, protocol_index := 1, broadcast_socket_port := 40001
    broadcast_socket_user_fd := 0 }

/-- Fixture: the terminating entry of the protocol table. -/
def protoTerm : Protocol :=
  { hasCallback := false, protocol_index := 0, broadcast_socket_port := 0
    broadcast_socket_user_fd := 0 }

/-- Fixture: the protocol table. -/
def wProtos : List Protocol := [proto0, proto1, protoTerm]

/-- Fixture: an `ESTABLISHED` connection on protocol 0. -/
def estConn0 : Conn :=
  { sock := 7, state := .WSI_STATE_ESTABLISHED, name_buffer_pos := 0
    protocol := 0, user_space := true, ietf_spec_revision := 76 }

/-- Fixture: a connection still in `HTTP` state (protocol pointer still at
the table head). -/
def httpConn0 : Conn :=
  { sock := 8, state := .WSI_STATE_HTTP, name_buffer_pos := 0
    protocol := 0, user_space := false, ietf_spec_revision := 76 }

/-- Fixture: an `ESTABLISHED` connection on protocol 1. -/
def estConn1 : Conn :=
  { sock := 9, state := .WSI_STATE_ESTABLISHED, name_buffer_pos := 0
    protocol := 1, user_space := true, ietf_spec_revision := 76 }

/-- Fixture: a context with `count_protocols = 2`; slots 0..2 are the
listener and the two rendezvous listeners, slot 3 is the rendezvous
connection for protocol 0 (sentinel 0), slots 4..6 the client records.
Slots 3 and 4 are read-ready. -/
def wCtx : Context :=
  { count_protocols := 2
    fds := [⟨3, 1, 0⟩, ⟨4, 1, 0⟩, ⟨5, 1, 0⟩, ⟨6, 1, 1⟩, ⟨7, 1, 1⟩,
            ⟨8, 1, 0⟩, ⟨9, 1, 0⟩]
    wsi := [nullSlot, nullSlot, nullSlot, .sentinel 0, .conn estConn0,
            .conn httpConn0, .conn estConn1] }

/-- Fixture oracle: the rendezvous read fails with -1. -/
def wOracleNegRead : Oracle :=
  { bcastRead := fun _ => -1, recvResult := fun _ => 1
    engineResult := fun _ => 0 }

/-- Fixture oracle: the transport read fails with -1. -/
def wOracleRecvNeg : Oracle :=
  { bcastRead := fun _ => 2, recvResult := fun _ => -1
    engineResult := fun _ => 0 }

/-- Fixture oracle: the transport read returns 0 bytes (peer closed). -/
def wOracleRecvZero : Oracle :=
  { bcastRead := fun _ => 2, recvResult := fun _ => 0
    engineResult := fun _ => 0 }

/-- C2: on a connection record, `libwebsocket_close_and_free_session`
records the prior state, sets the state to `DEAD`, and (given that the
record's protocol entry has a callback, as every non-terminator entry
does) fires the `CLOSED` callback exactly once iff the prior state was
`ESTABLISHED`; a record destroyed in `HTTP` state or already `DEAD`
receives no `CLOSED` callback. -/
theorem C2_closed_exactly_once (bound : Nat) (protos : List Protocol)
    (c : Conn) (hcb : (protoOf protos c).hasCallback = true) :
    (libwebsocket_close_and_free_session bound protos (.conn c)).1 =
      .conn { c with state := .WSI_STATE_DEAD_SOCKET } ∧
    (libwebsocket_close_and_free_session bound protos (.conn c)).2.1 =
      (if c.state = .WSI_STATE_ESTABLISHED then
        [⟨{ c with state := .WSI_STATE_DEAD_SOCKET },
          .LWS_CALLBACK_CLOSED, 0⟩]
       else []) := by
  unfold libwebsocket_close_and_free_session closeAndFreeConn
    SlotValue.value_lt
  cases hst : c.state <;> simp [hcb, hst]

/-- Witness for C2 at a concrete established record. -/
theorem C2_closed_exactly_once_witness :
    (libwebsocket_close_and_free_session 10 wProtos (.conn estConn0)).1 =
      .conn { estConn0 with state := .WSI_STATE_DEAD_SOCKET } ∧
    (libwebsocket_close_and_free_session 10 wProtos (.conn estConn0)).2.1 =
      (if estConn0.state = .WSI_STATE_ESTABLISHED then
        [⟨{ estConn0 with state := .WSI_STATE_DEAD_SOCKET },
          .LWS_CALLBACK_CLOSED, 0⟩]
       else []) :=
  C2_closed_exactly_once 10 wProtos estConn0 (by decide)

/-- C5: teardown is idempotent.  On a slot value of magnitude below
`LWS_MAX_PROTOCOLS` the call is a no-op (no callback, no state change,
no resource release); on an established record (whose protocol entry has
a callback) the first call fires a single `CLOSED` and sets the state to
`DEAD`, so a second call on the resulting record fires nothing. -/
theorem C5_teardown_idempotent (bound : Nat) (protos : List Protocol)
    (i : Nat) (c : Conn) (hi : i < bound)
    (hcb : (protoOf protos c).hasCallback = true)
    (hest : c.state = .WSI_STATE_ESTABLISHED) :
    libwebsocket_close_and_free_session bound protos (.sentinel i) =
      (.sentinel i, [], false) ∧
    (libwebsocket_close_and_free_session bound protos (.conn c)).1 =
      .conn { c with state := .WSI_STATE_DEAD_SOCKET } ∧
    (libwebsocket_close_and_free_session bound protos (.conn c)).2.1 =
      [⟨{ c with state := .WSI_STATE_DEAD_SOCKET },
        .LWS_CALLBACK_CLOSED, 0⟩] ∧
    (libwebsocket_close_and_free_session bound protos
      ((libwebsocket_close_and_free_session bound protos
        (.conn c)).1)).2.1 = [] := by
  unfold libwebsocket_close_and_free_session closeAndFreeConn
    SlotValue.value_lt
  simp [hi, hcb, hest]

/-- Witness for C5 at a concrete sentinel and established record. -/
theorem C5_teardown_idempotent_witness :
    libwebsocket_close_and_free_session 10 wProtos (.sentinel 0) =
      (.sentinel 0, [], false) ∧
    (libwebsocket_close_and_free_session 10 wProtos (.conn estConn0)).1 =
      .conn { estConn0 with state := .WSI_STATE_DEAD_SOCKET } ∧
    (libwebsocket_close_and_free_session 10 wProtos (.conn estConn0)).2.1 =
      [⟨{ estConn0 with state := .WSI_STATE_DEAD_SOCKET },
        .LWS_CALLBACK_CLOSED, 0⟩] ∧
    (libwebsocket_close_and_free_session 10 wProtos
      ((libwebsocket_close_and_free_session 10 wProtos
        (.conn estConn0)).1)).2.1 = [] :=
  C5_teardown_idempotent 10 wProtos 0 estConn0 (by decide) (by decide)
    (by decide)

/-- C6: an accept performed while the descriptor table already holds
`MAX_CLIENTS` entries closes the new descriptor immediately, creates no
connection record, leaves the table (and every record in it) unchanged,
and fires no callback. -/
theorem C6_table_full_accept (maxClients : Nat) (client : Nat) (fd : Int)
    (ctx : Context) (hfd : 0 ≤ fd)
    (hfull : maxClients ≤ ctx.fds.length) :
    acceptOnSlot maxClients client fd ctx = ⟨ctx, true, false, []⟩ := by
  unfold acceptOnSlot
  rw [if_neg (by omega), if_pos hfull]

/-- Witness for C6 at a concrete full table (`MAX_CLIENTS = 7`). -/
theorem C6_table_full_accept_witness :
    acceptOnSlot 7 0 11 wCtx = ⟨wCtx, true, false, []⟩ :=
  C6_table_full_accept 7 0 11 wCtx (by decide) (by decide)

/-- C8: the accept-phase guard `!this->fds[client].revents & POLLIN`
(line 537) does not implement accept-on-readable.  At
`revents = POLLERR` the slot is not read-ready yet the code does not
skip it and attempts the accept; the guard only skips slots whose
`revents` is 0 as a whole. -/
theorem C8_accept_guard_precedence_bug :
    acceptGuardSkips POLLERR = false ∧
    reventsReadable POLLERR = false ∧
    acceptGuardSkips 0 = true ∧
    reventsReadable 0 = false := by decide

/-- C3: the rendezvous read-error path is dead code.  `len` is a
`size_t`, so assigning the -1 returned by `read` yields 2^64 - 1 and the
`len < 0` test never fires: instead of logging and skipping, the code
fans the garbage length out, firing a `BROADCAST` callback on the
matching established connection with payload length 2^64 - 1. -/
theorem C3_negative_rendezvous_read_fans_out :
    serviceSlotStep 10 wProtos wOracleNegRead 3 wCtx =
      ⟨none, .continueWith
        [⟨estConn0, .LWS_CALLBACK_BROADCAST, SIZE_T_MOD - 1⟩]⟩ ∧
    wOracleNegRead.bcastRead 3 = -1 ∧
    (wCtx.wsi.getD 3 nullSlot).value_lt 10 = true := by decide

/-- C4 counterexample: a transport read returning a negative result does
not tear the connection down.  At slot 4 of the fixture (a record slot,
read-ready) with `recv` returning -1, the service pass leaves the table
unchanged and fires no callback, whereas reaping would have shrunk the
table. -/
theorem C4_negative_read_no_teardown_counterexample :
    serviceSlots 10 wProtos wOracleRecvNeg [4] wCtx = (wCtx, []) ∧
    wOracleRecvNeg.recvResult 4 = -1 ∧
    (∃ c, wCtx.wsi.getD 4 nullSlot = .conn c) ∧
    reap 4 wCtx ≠ wCtx := by
  refine ⟨by decide, by decide, ⟨estConn0, by decide⟩, by decide⟩

/-- C4 as amended: for a record slot that is read-ready and reports no
error/hangup, a transport read returning a negative result is logged and
the slot is skipped with no teardown; a read of 0 bytes tears the
connection down and reaps the slot; and the bytes are handed to the
handshake/framing engine exactly when the read result is positive. -/
theorem C4_transport_read_dispositions (bound : Nat)
    (protos : List Protocol) (orc : Oracle) (client : Nat)
    (ctx : Context) (c : Conn)
    (hv : ctx.wsi.getD client nullSlot = .conn c)
    (herr : (ctx.fds.getD client default).revents &&&
      (POLLERR ||| POLLHUP) = 0)
    (hin : (ctx.fds.getD client default).revents &&& POLLIN ≠ 0) :
    (orc.recvResult client < 0 →
      serviceSlotStep bound protos orc client ctx =
        ⟨none, .continueWith []⟩) ∧
    (orc.recvResult client = 0 →
      serviceSlotStep bound protos orc client ctx =
        ⟨none, .reapAfterClose
          (libwebsocket_close_and_free_session bound protos
            (.conn c)).2.1⟩ ∧
      (serviceSlotStep bound protos orc client ctx).action.isReap =
        true) ∧
    (0 < orc.recvResult client →
      (serviceSlotStep bound protos orc client ctx).handedToEngine =
        some (orc.recvResult client).toNat) ∧
    ((serviceSlotStep bound protos orc client ctx).handedToEngine ≠
        none → 0 < orc.recvResult client) := by
  unfold serviceSlotStep
  rw [if_neg (by omega), if_neg (by omega), hv]
  simp only [SlotValue.value_lt, Bool.false_eq_true, if_false]
  refine ⟨?_, ?_, ?_, ?_⟩
  · intro hneg
    rw [if_pos hneg]
  · intro hzero
    rw [if_neg (by omega), if_pos hzero]
    exact ⟨rfl, rfl⟩
  · intro hpos
    rw [if_neg (by omega), if_neg (by omega)]
    split <;> rfl
  · intro hne
    by_cases hneg : orc.recvResult client < 0
    · rw [if_pos hneg] at hne
      simp at hne
    · rw [if_neg hneg] at hne
      by_cases hzero : orc.recvResult client = 0
      · rw [if_pos hzero] at hne
        simp at hne
      · omega

/-- Witness for C4 as amended, at slot 4 of the fixture with the
zero-byte oracle. -/
theorem C4_transport_read_dispositions_witness :
    (wOracleRecvZero.recvResult 4 < 0 →
      serviceSlotStep 10 wProtos wOracleRecvZero 4 wCtx =
        ⟨none, .continueWith []⟩) ∧
    (wOracleRecvZero.recvResult 4 = 0 →
      serviceSlotStep 10 wProtos wOracleRecvZero 4 wCtx =
        ⟨none, .reapAfterClose
          (libwebsocket_close_and_free_session 10 wProtos
            (.conn estConn0)).2.1⟩ ∧
      (serviceSlotStep 10 wProtos wOracleRecvZero 4 wCtx).action.isReap =
        true) ∧
    (0 < wOracleRecvZero.recvResult 4 →
      (serviceSlotStep 10 wProtos wOracleRecvZero 4 wCtx).handedToEngine =
        some (wOracleRecvZero.recvResult 4).toNat) ∧
    ((serviceSlotStep 10 wProtos wOracleRecvZero 4 wCtx).handedToEngine ≠
        none → 0 < wOracleRecvZero.recvResult 4) :=
  C4_transport_read_dispositions 10 wProtos wOracleRecvZero 4 wCtx
    estConn0 (by decide) (by decide) (by decide)

/-- Erasing the same index from two lists of equal length commutes with
zipping them. -/
theorem zip_eraseIdx_of_length_eq {α β : Type} (l1 : List α)
    (l2 : List β) (i : Nat) (h : l1.length = l2.length) :
    (l1.eraseIdx i).zip (l2.eraseIdx i) = (l1.zip l2).eraseIdx i := by
  induction l1 generalizing l2 i with
  | nil =>
    cases l2 with
    | nil => simp
    | cons b t2 => simp at h
  | cons a t1 ih =>
    cases l2 with
    | nil => simp at h
    | cons b t2 =>
      cases i with
      | zero => simp
      | succ j =>
        simp only [List.eraseIdx_cons_succ, List.zip_cons_cons]
        rw [ih t2 j (by simpa using h)]

/-- C7: when servicing slot `client` reaps it, the pass stops there
(the rest of the service phase for this iteration is aborted), the
resulting table is the reap of the current one, the reap removes entry
`client` from both parallel arrays together (so every remaining index
still pairs `fds[j]` with the connection-slot value it was originally
paired with), and the count drops by one. -/
theorem C7_reap_pairing_and_service_abort (bound : Nat)
    (protos : List Protocol) (orc : Oracle) (client : Nat)
    (rest : List Nat) (ctx : Context)
    (hlen : ctx.fds.length = ctx.wsi.length)
    (hreap : (serviceSlotStep bound protos orc client ctx).action.isReap =
      true) :
    serviceSlots bound protos orc (client :: rest) ctx =
      serviceSlots bound protos orc [client] ctx ∧
    (serviceSlots bound protos orc (client :: rest) ctx).1 =
      reap client ctx ∧
    (reap client ctx).fds.zip ((reap client ctx).wsi) =
      (ctx.fds.zip ctx.wsi).eraseIdx client ∧
    (client < ctx.fds.length →
      (reap client ctx).fds.length = ctx.fds.length - 1) := by
  have hpair : (reap client ctx).fds.zip ((reap client ctx).wsi) =
      (ctx.fds.zip ctx.wsi).eraseIdx client := by
    simp only [reap]
    exact zip_eraseIdx_of_length_eq ctx.fds ctx.wsi client hlen
  have hcount : client < ctx.fds.length →
      (reap client ctx).fds.length = ctx.fds.length - 1 := by
    intro hlt
    simp only [reap]
    rw [List.length_eraseIdx]
    simp [hlt]
  cases hact : (serviceSlotStep bound protos orc client ctx).action with
  | continueWith evs =>
    rw [hact] at hreap
    simp [SlotAction.isReap] at hreap
  | reapAfterClose evs =>
    refine ⟨?_, ?_, hpair, hcount⟩ <;> simp [serviceSlots, hact]
  | reapOnly =>
    refine ⟨?_, ?_, hpair, hcount⟩ <;> simp [serviceSlots, hact]

/-- Witness for C7 at slot 4 of the fixture (peer closed: `recv`
returns 0), with two further slots pending. -/
theorem C7_reap_pairing_and_service_abort_witness :
    serviceSlots 10 wProtos wOracleRecvZero (4 :: [5, 6]) wCtx =
      serviceSlots 10 wProtos wOracleRecvZero [4] wCtx ∧
    (serviceSlots 10 wProtos wOracleRecvZero (4 :: [5, 6]) wCtx).1 =
      reap 4 wCtx ∧
    (reap 4 wCtx).fds.zip ((reap 4 wCtx).wsi) =
      (wCtx.fds.zip wCtx.wsi).eraseIdx 4 ∧
    (4 < wCtx.fds.length →
      (reap 4 wCtx).fds.length = wCtx.fds.length - 1) :=
  C7_reap_pairing_and_service_abort 10 wProtos wOracleRecvZero 4 [5, 6]
    wCtx (by decide) (by decide)

/-- A slot the in-loop broadcast filter keeps is an established record of
the requested protocol. -/
theorem inLoopTarget_sound {bound P : Nat} {v : SlotValue} {c : Conn}
    (h : inLoopTarget bound P v = some c) :
    c.state = .WSI_STATE_ESTABLISHED ∧ c.protocol = P := by
  cases v with
  | sentinel i =>
    unfold inLoopTarget at h
    split at h
    · simp_all
    · simp_all
  | conn c0 =>
    unfold inLoopTarget at h
    simp only [SlotValue.value_lt, Bool.false_eq_true, if_false] at h
    split_ifs at h with h1 h2
    all_goals simp_all

/-- A slot the rendezvous fan-out filter keeps is an established record
whose protocol entry carries the requested sentinel index. -/
theorem fanOutTarget_sound {bound s : Nat} {protos : List Protocol}
    {v : SlotValue} {c : Conn}
    (h : fanOutTarget bound protos s v = some c) :
    c.state = .WSI_STATE_ESTABLISHED ∧
    (protoOf protos c).protocol_index = s := by
  cases v with
  | sentinel i =>
    unfold fanOutTarget at h
    split at h
    · simp_all
    · simp_all
  | conn c0 =>
    unfold fanOutTarget at h
    simp only [SlotValue.value_lt, Bool.false_eq_true, if_false] at h
    split_ifs at h with h1 h2
    all_goals simp_all

/-- C1: broadcast targeting.  Along the in-loop path of
`libwebsockets_broadcast` for protocol entry `P`, every `BROADCAST`
callback fires on an `ESTABLISHED` connection whose protocol pointer is
`P`; along the rendezvous fan-out of `libwebsocket_poll_connections` for
sentinel `s`, every `BROADCAST` callback fires on an `ESTABLISHED`
connection whose protocol entry carries `protocol_index = s`.  No
callback fires on any other connection. -/
theorem C1_broadcast_targeting (bound : Nat) (protos : List Protocol)
    (ctx : Context) (P s len : Nat) :
    (∀ evs, libwebsockets_broadcast bound protos ctx P len =
        .inLoop evs →
      ∀ e ∈ evs, e.reason = .LWS_CALLBACK_BROADCAST ∧
        e.target.state = .WSI_STATE_ESTABLISHED ∧
        e.target.protocol = P) ∧
    (∀ e ∈ fanOutEvents bound protos ctx s len,
      e.reason = .LWS_CALLBACK_BROADCAST ∧
        e.target.state = .WSI_STATE_ESTABLISHED ∧
        (protoOf protos e.target).protocol_index = s) := by
  constructor
  · intro evs hevs e he
    unfold libwebsockets_broadcast at hevs
    split at hevs
    · cases hevs
      unfold inLoopEvents at he
      rw [List.mem_map] at he
      obtain ⟨c, hc, rfl⟩ := he
      rw [List.mem_filterMap] at hc
      obtain ⟨v, _, hvc⟩ := hc
      have hp := inLoopTarget_sound hvc
      exact ⟨rfl, hp.1, hp.2⟩
    · cases hevs
  · intro e he
    unfold fanOutEvents at he
    rw [List.mem_map] at he
    obtain ⟨c, hc, rfl⟩ := he
    rw [List.mem_filterMap] at hc
    obtain ⟨v, _, hvc⟩ := hc
    have hp := fanOutTarget_sound hvc
    exact ⟨rfl, hp.1, hp.2⟩

/-- Witness for C1 on the fixture: the single event of each path targets
the established protocol-0 connection. -/
theorem C1_broadcast_targeting_witness :
    (Event.mk estConn0 .LWS_CALLBACK_BROADCAST 2).reason =
        .LWS_CALLBACK_BROADCAST ∧
      (Event.mk estConn0 .LWS_CALLBACK_BROADCAST 2).target.state =
        .WSI_STATE_ESTABLISHED ∧
      (Event.mk estConn0 .LWS_CALLBACK_BROADCAST 2).target.protocol = 0 :=
  (C1_broadcast_targeting 10 wProtos wCtx 0 0 2).1
    [Event.mk estConn0 .LWS_CALLBACK_BROADCAST 2] (by decide)
    (Event.mk estConn0 .LWS_CALLBACK_BROADCAST 2) (by decide)

/-- The table-consistency premise of C10 for one slot: an established
record's protocol pointer designates an entry whose `protocol_index`
equals its position in the table. -/
def connEstProtoOk (protos : List Protocol) : SlotValue → Bool
  | .sentinel _ => true
  | .conn c =>
    (c.state != .WSI_STATE_ESTABLISHED) ||
      ((protoOf protos c).protocol_index == c.protocol)

/-- C10: the two broadcast delivery implementations are equivalent.
Assuming every established connection's protocol pointer designates a
table entry whose `protocol_index` equals its position, the rendezvous
fan-out for the sentinel of protocol entry `P` (matching by
`protocol_index`) and the in-loop path for `P` (matching by pointer
equality) fire the `BROADCAST` callback on exactly the same connections,
in the same order. -/
theorem C10_broadcast_paths_equivalent (bound : Nat)
    (protos : List Protocol) (ctx : Context) (P len : Nat)
    (H : ctx.wsi.all (connEstProtoOk protos) = true) :
    fanOutEvents bound protos ctx P len = inLoopEvents bound ctx P len := by
  unfold fanOutEvents inLoopEvents
  congr 1
  apply List.filterMap_congr
  intro v hv
  have hv2 : v ∈ ctx.wsi := by
    unfold broadcastSlots at hv
    exact List.mem_of_mem_drop hv
  have hok := (List.all_eq_true.mp H) v hv2
  cases v with
  | sentinel i =>
    unfold fanOutTarget inLoopTarget
    split <;> rfl
  | conn c =>
    unfold fanOutTarget inLoopTarget
    simp only [SlotValue.value_lt, Bool.false_eq_true, if_false]
    by_cases hst : c.state = .WSI_STATE_ESTABLISHED
    · have hidx : (protoOf protos c).protocol_index = c.protocol := by
        simp [connEstProtoOk, hst] at hok
        exact hok
      simp [hst, hidx]
    · simp [hst]

/-- Witness for C10 on the fixture, whose three records all satisfy the
consistency premise. -/
theorem C10_broadcast_paths_equivalent_witness :
    fanOutEvents 10 wProtos wCtx 0 5 = inLoopEvents 10 wCtx 0 5 :=
  C10_broadcast_paths_equivalent 10 wProtos wCtx 0 5 (by decide)

/-- C9 counterexample: with two protocols, descriptor-table slot 2 right
after the bootstrap loop holds `NULL` (numeric value 0, line 464 of
libwebsockets.c), not the sentinel 1 = k - 1 the claim asserts. -/
theorem C9_bootstrap_slot_counterexample :
    (bootstrapWsi nullSlot 2)[2]? = some nullSlot ∧
    nullSlot ≠ SlotValue.sentinel 1 := by decide

/-- The bootstrap loop stamps entry `j` of the protocol table (for `j`
before the terminator) with `protocol_index = i + j` when started at
running count `i`. -/
theorem stampProtocols_protocol_index (ps : List Protocol) (i j : Nat)
    (hj : j < countProtocols ps) :
    ((stampProtocols i ps)[j]?).map Protocol.protocol_index =
      some (i + j) := by
  induction ps generalizing i j with
  | nil => simp [countProtocols] at hj
  | cons p rest ih =>
    unfold countProtocols at hj
    by_cases hc : p.hasCallback
    · rw [if_pos hc] at hj
      unfold stampProtocols
      rw [if_pos hc]
      cases j with
      | zero => simp
      | succ j2 =>
        simp only [List.getElem?_cons_succ]
        rw [ih (i + 1) j2 (by omega)]
        congr 1
        omega
    · rw [if_neg hc] at hj
      omega

/-- C9 as amended: right after the bootstrap loop, every
rendezvous-listener slot `k` in `1..=N` holds `NULL` (no sentinel); the
small-integer sentinel `k - 1` is stored in the connection-slot of the
slot newly appended when the rendezvous listener at slot `k` accepts a
connection, and `k - 1` is exactly the `protocol_index` the bootstrap
loop stamped on protocol `k - 1`. -/
theorem C9_rendezvous_sentinel_on_accept (n k maxClients : Nat)
    (w0 : SlotValue) (fd : Int) (ctx : Context) (ps : List Protocol)
    (hk1 : 1 ≤ k) (hk2 : k ≤ n) (hfd : 0 ≤ fd)
    (hroom : ctx.fds.length < maxClients)
    (hkp : k - 1 < countProtocols ps) :
    (bootstrapWsi w0 n)[k]? = some nullSlot ∧
    (acceptOnSlot maxClients k fd ctx).ctx.wsi =
      ctx.wsi ++ [.sentinel (k - 1)] ∧
    ((stampProtocols 0 ps)[k - 1]?).map Protocol.protocol_index =
      some (k - 1) := by
  refine ⟨?_, ?_, ?_⟩
  · obtain ⟨j, rfl⟩ : ∃ j, k = j + 1 := ⟨k - 1, by omega⟩
    simp only [bootstrapWsi, List.getElem?_cons_succ,
      List.getElem?_replicate]
    rw [if_pos (by omega)]
  · unfold acceptOnSlot
    rw [if_neg (by omega), if_neg (by omega), if_pos (by omega)]
    simp [appendSlot]
  · simpa using stampProtocols_protocol_index ps 0 (k - 1) hkp

/-- Witness for C9 as amended: two protocols, accept on rendezvous
listener slot 2 appends sentinel 1, which is the stamped
`protocol_index` of protocol 1. -/
theorem C9_rendezvous_sentinel_on_accept_witness :
    (bootstrapWsi nullSlot 2)[2]? = some nullSlot ∧
    (acceptOnSlot 100 2 11 wCtx).ctx.wsi =
      wCtx.wsi ++ [.sentinel (2 - 1)] ∧
    ((stampProtocols 0 wProtos)[2 - 1]?).map Protocol.protocol_index =
      some (2 - 1) :=
  C9_rendezvous_sentinel_on_accept 2 2 100 nullSlot 11 wCtx wProtos
    (by decide) (by decide) (by decide) (by decide) (by decide)
